import Mathlib

/-!
Verification of the streaming server-side renderer in
`src/lib/render-lit-html.ts` (shipped here inside `src/src/lib/util/`).

The development shallowly embeds the renderer: parse5 trees become an
inductive `Node` type, the mutable cursor variables (`partIndex`,
`templatePartIndex`, `lastOffset`) become an explicit `LState` record, the
shared per-render state (`renderInfo.instances`, the console log, the global
template cache) becomes `RState`, and the lazy generator of text chunks
becomes the writer-with-terminal-error monad `EmitM`: a list of chunks
already yielded together with either a result or the error that terminated
the stream (chunks yielded before a throw are kept, matching stream
semantics: output already emitted is not retracted).

External collaborators (lit-html's marker constants, parse5's parser, the
custom-element registry, the reflected-attribute table, directive
implementations, `LitElementRenderer`) are modelled from their call
contracts as described in the spec; each such definition carries a comment
saying what it models.
-/

set_option autoImplicit false

namespace LitSsr

/-! ## External marker conventions (lit-html/lib/template.js)

`marker` is a reserved sentinel string generated once per process by
lit-html; its exact value is opaque.  `boundAttributeSuffix` is the reserved
suffix appended to bound attribute names.  `markerRegex` matches occurrences
of the sentinel; the spec describes it as "a reserved marker sentinel string
used ... as a substring inside attribute values to mark embedded
expressions", so splitting on it is modelled as splitting on the literal
sentinel. -/

/-- Modelled external constant: lit-html's reserved marker sentinel
(`\x7b\x7blit-NNNN\x7d\x7d`); the concrete value is opaque to the renderer. -/
def marker : String := "\x7b\x7blit-314159265\x7d\x7d"

/-- lit-html's reserved bound-attribute suffix. -/
def boundAttributeSuffix : String := "$lit$"

/-- The marker sentinel as a character list. -/
def markerList : List Char := marker.toList

/-- The reversed marker, used by the incremental splitter below. -/
def markerRev : List Char := markerList.reverse

/-- Splits a character list on (non-overlapping, leftmost) occurrences of
the marker sentinel, accumulating the current piece in reverse in `acc`.
Models JavaScript `String.prototype.split` with lit-html's `markerRegex`. -/
def splitMarkerAux : List Char → List Char → List (List Char)
  | acc, [] => [acc.reverse]
  | acc, c :: t =>
    let acc2 := c :: acc
    if markerRev.isPrefixOf acc2 then
      (acc2.drop markerRev.length).reverse :: splitMarkerAux [] t
    else
      splitMarkerAux acc2 t

/-- `attr.value.split(markerRegex)` from the source. -/
def splitMarker (s : String) : List String :=
  (splitMarkerAux [] s.toList).map List.asString

/-! ## Data model -/

mutual
/-- A dynamic value of a template expression.  The source dispatches on
runtime shape (`instanceof TemplateResult`, `isRepeatDirective`,
`isRenderLightDirective`, `nothing`/`noChange`, `Array.isArray`); those
shapes are disjoint, so they are modelled as constructors of one inductive
type.  Directive values are external collaborators consumed through their
call contract: a repeat directive is the chunk sequence its pre-renderer
yields, a class-map directive is the class string its pre-renderer
returns. -/
inductive Value where
  | undef
  | nul
  | nothing
  | noChange
  | str (s : String)
  | template (t : TemplateResult)
  | arr (vs : List Value)
  | repeatD (chunks : List String)
  | classMapD (s : String)
  | renderLightD

/-- One instantiation of a template literal: identity-carrying static
strings, the ordered dynamic values, and the content digest. -/
inductive TemplateResult where
  | mk (stringsId : Nat) (strings : List String) (html : String)
      (values : List Value) (digest : String)
end

/-- The identity token of the static strings array (JavaScript caches on
object identity of `result.strings`). -/
def TemplateResult.stringsId : TemplateResult → Nat
  | .mk i _ _ _ _ => i

/-- The static string fragments (`result.strings`). -/
def TemplateResult.strings : TemplateResult → List String
  | .mk _ s _ _ _ => s

/-- `result.getHTML()`: the HTML source generated from the static fragments
by lit-html (external; a pure function of the strings, carried as a
field). -/
def TemplateResult.getHTML : TemplateResult → String
  | .mk _ _ h _ _ => h

/-- The ordered dynamic values (`result.values`). -/
def TemplateResult.values : TemplateResult → List Value
  | .mk _ _ _ v _ => v

/-- The content digest (`result.digest`). -/
def TemplateResult.digest : TemplateResult → String
  | .mk _ _ _ _ d => d

/-- A constructed custom-element instance.  `props` records property
assignments made by property bindings; `shadow` is the chunk sequence its
renderer produces (see `expandStep`); `renderLightValue` is what its
`renderLight()` method returns. -/
structure Instance where
  tagName : String
  props : List (String × Value)
  shadow : List String
  renderLightValue : Value

/-- A parse5 attribute together with its source location
(`node.sourceCodeLocation.attrs[attr.name]`). -/
structure AttrN where
  name : String
  value : String
  startOffset : Nat
  endOffset : Nat

/-- A parse5 tree node with the source locations the renderer reads
(`sourceCodeLocationInfo: true`): comment start/end offsets and the end
offset of an element's start tag. -/
inductive Node where
  | comment (data : String) (startOffset endOffset : Nat)
  | text (value : String)
  | element (tagName : String) (attrs : List AttrN) (startTagEnd : Nat)
      (children : List Node)

/-- A parsed `DefaultTreeDocumentFragment`.  parse5's fragment type declares
`childNodes: DefaultTreeNode[]`, always an array; the source's defensive
`ast.childNodes === undefined` early return is unreachable under that
contract and is therefore not part of the model. -/
structure Fragment where
  childNodes : List Node

/-- One dynamic slot recorded by the part extractor (lit-html
`TemplatePart`). -/
inductive TemplatePart where
  | node (index : Int)
  | attribute (index : Int) (name : String) (strings : List String)

/-- The depth-first node index a part was recorded at. -/
def TemplatePart.index : TemplatePart → Int
  | .node i => i
  | .attribute i _ _ => i

/-- The cached parse of one template's static shape. -/
structure ParsedTemplate where
  html : String
  ast : Fragment
  parts : List TemplatePart

/-- The global template cache (`templateCache`), keyed on the identity of
the static strings array, plus a counter of how many times the parser has
actually run (to state "without re-parsing"). -/
structure Cache where
  entries : List (Nat × ParsedTemplate)
  parses : Nat

/-- One frame of `renderInfo.instances`: the tag name pushed for an element
and the optional live instance stored into it. -/
structure Frame where
  tagName : String
  instance? : Option Instance

/-- Shared per-render state: the `renderInfo.instances` stack (top of stack
is the *last* list element, matching array push/pop), the console error log,
and the global template cache. -/
structure RState where
  instances : List Frame
  log : List String
  cache : Cache

/-- The mutable cursor variables local to one `renderTemplateResult` call:
`partIndex` (next value to consume), `templatePartIndex` (cursor into the
extracted parts, initialized to -1), and `lastOffset` (last HTML offset
flushed; `none` models `undefined`). -/
structure LState where
  partIndex : Nat
  templatePartIndex : Int
  lastOffset : Option Nat

/-- External collaborators: the custom-element registry
(`customElements.get`; `some (.error ())` is a registered constructor that
throws), the reflected-attribute lookup `reflectedAttributeName`, and the
parse5 `parseFragment` capability. -/
structure Env where
  reg : String → Option (Except Unit Instance)
  reflect : String → String → Option String
  parse : String → Fragment

/-! ## The chunk-stream monad

A generator run is a list of chunks already yielded plus either the result
or the error that terminated the stream. -/

/-- Writer-with-terminal-error: the collected yields and the outcome. -/
def EmitM (α : Type) : Type := List String × Except String α

/-- Sequencing: chunks accumulate; an error stops the continuation but
keeps the chunks yielded so far. -/
def eseq {α β : Type} (m : EmitM α) (f : α → EmitM β) : EmitM β :=
  match m with
  | (out, .error e) => (out, .error e)
  | (out, .ok a) =>
    let r := f a
    (out ++ r.1, r.2)

/-! ## String helpers modelling JavaScript semantics -/

/-- JavaScript `s.substring(a, b)`: both indices clamped to the string
length, swapped when `a > b`; a `b` of `undefined` (`none`) means the end of
the string.  Indices are modelled as character positions. -/
def jsSubstring (s : String) (a : Nat) (b : Option Nat) : String :=
  let len := s.length
  let a' := min a len
  let b' := min (b.getD len) len
  let lo := min a' b'
  let hi := max a' b'
  ((s.toList.drop lo).take (hi - lo)).asString

/-- JavaScript `String(value)` coercion on the value variants (external
semantics of primitive/object stringification). -/
def jsString : Value → String
  | .undef => "undefined"
  | .nul => "null"
  | .nothing => "[object Object]"
  | .noChange => "[object Object]"
  | .str s => s
  | .template _ => "[object Object]"
  | .arr _ => "[array]"
  | .repeatD _ => "[function]"
  | .classMapD _ => "[function]"
  | .renderLightD => "[function]"

/-- JavaScript truthiness of the value variants (objects, functions, arrays
and non-empty strings are truthy; `undefined`, `null` and the empty string
are falsy). -/
def truthy : Value → Bool
  | .undef => false
  | .nul => false
  | .str s => !(s == "")
  | _ => true

/-! ## lit-html's lastAttributeNameRegex (external)

The source computes the logical (sigil-carrying, case-preserved) attribute
name as `lastAttributeNameRegex.exec(stringForPart)![2]` where the regex is

  `([ \t\n\f\r])([^\0-\x1F\x7F-\x9F \t\n\f\r"'>=/]+)([ \t\n\f\r]*=[ \t\n\f\r]*(?:[^ \t\n\f\r"'<>=\x60]*|"[^"]*|'[^']*))$`

anchored at the end of the string.  `exec` finds the leftmost match; the
name-character class excludes whitespace and `=`, so the greedy `+` never
needs to backtrack, and each value alternative either matches exactly to
the end or fails, so the matcher below is an exact executable model. -/

/-- HTML attribute-value whitespace `[ \t\n\f\r]`. -/
def isAttrWs (c : Char) : Bool :=
  c == ' ' || c == '\t' || c == '\n' || c == '\x0c' || c == '\r'

/-- The regex's attribute-name character class
`[^\0-\x1F\x7F-\x9F " ' > = /]` (controls, whitespace, quotes, `>`, `=`,
`/` excluded). -/
def isAttrNameChar (c : Char) : Bool :=
  decide (0x20 ≤ c.toNat) && !(decide (0x7F ≤ c.toNat && c.toNat ≤ 0x9F)) &&
  !(c == ' ') && !(c == '"') && !(c == '\'') && !(c == '>') && !(c == '=') &&
  !(c == '/')

/-- The regex's unquoted attribute-value character class. -/
def isUnquotedValueChar (c : Char) : Bool :=
  !(isAttrWs c) && !(c == '"') && !(c == '\'') && !(decide (c.toNat = 0x60)) &&
  !(c == '<') && !(c == '>') && !(c == '=')

/-- Does capture group 3, `[ws]* = [ws]* (unquoted* | "[^"]* | '[^']*)`,
match `l` exactly to the end of the string? -/
def valueTailMatches (l : List Char) : Bool :=
  match l.dropWhile isAttrWs with
  | '=' :: l2 =>
    let l3 := l2.dropWhile isAttrWs
    l3.all isUnquotedValueChar ||
    (match l3 with
     | '"' :: t => t.all (fun c => !(c == '"'))
     | '\'' :: t => t.all (fun c => !(c == '\''))
     | _ => false)
  | _ => false

/-- Leftmost scan for `(ws)(name+)(value-tail)$`; returns capture group 2. -/
def lastAttributeNameAux : List Char → Option (List Char)
  | [] => none
  | c :: rest =>
    if isAttrWs c then
      let nm := rest.takeWhile isAttrNameChar
      let tl := rest.dropWhile isAttrNameChar
      if !nm.isEmpty && valueTailMatches tl then some nm
      else lastAttributeNameAux rest
    else lastAttributeNameAux rest

/-- `lastAttributeNameRegex.exec(s)` capture group 2 (`none` models a null
exec result). -/
def lastAttributeName (s : String) : Option String :=
  (lastAttributeNameAux s.toList).map List.asString

/-! ## Part extractor and template registry (`getTemplate`) -/

mutual
/-- Depth-first pre-order traversal of a node (parse5-utils `depthFirst`,
not under `src/`; modelled from the spec: "depth-first pre-order traversal",
the node itself first, then its children recursively). -/
def depthFirst : Node → List Node
  | .comment d s e => [.comment d s e]
  | .text v => [.text v]
  | .element t a se cs => .element t a se cs :: depthFirstList cs

/-- Depth-first traversal of a node list, in order. -/
def depthFirstList : List Node → List Node
  | [] => []
  | n :: rest => depthFirst n ++ depthFirstList rest
end

/-- One step of `getTemplate`'s extraction loop, for a single visited node:
given the running depth-first index and the parts collected so far, returns
the updated pair.  Mirrors the source exactly: a comment node pushes a
`NodePart` at the current index when its text equals the marker, and — for
*every* comment node — increments the index once inside the comment branch
and once at the end of the loop body (a total advance of 2); an element
records an `AttributePart` (at the current index) per attribute whose name
ends with the bound suffix, then advances by 1; any other node advances
by 1. -/
def extractStep (i : Int) (acc : List TemplatePart) : Node → Int × List TemplatePart
  | .comment d _ _ =>
    let acc' := if d = marker then acc ++ [.node i] else acc
    (i + 1 + 1, acc')
  | .element _ attrs _ _ =>
    let acc' := acc ++ attrs.filterMap (fun a =>
      if a.name.endsWith boundAttributeSuffix then
        some (.attribute i (a.name.dropRight boundAttributeSuffix.length)
          (splitMarker a.value))
      else none)
    (i + 1, acc')
  | .text _ => (i + 1, acc)

/-- The extraction loop over the depth-first node sequence. -/
def extractLoop : Int → List TemplatePart → List Node → Int × List TemplatePart
  | i, acc, [] => (i, acc)
  | i, acc, n :: rest =>
    let (i', acc') := extractStep i acc n
    extractLoop i' acc' rest

/-- The part extractor: iterate `depthFirst(ast)` with `nodeIndex`
initialized to -1.  The fragment root itself is the first visited node; it
is neither a comment nor an element, so its visit just increments the index
(to 0, "so that the first child node is index 0"). -/
def extractParts (ast : Fragment) : List TemplatePart :=
  (extractLoop (-1 + 1) [] (depthFirstList ast.childNodes)).2

/-- Association lookup in the template cache. -/
def lookupCache : List (Nat × ParsedTemplate) → Nat → Option ParsedTemplate
  | [], _ => none
  | (k, t) :: rest, k' => if k = k' then some t else lookupCache rest k'

/-- `getTemplate`: memoized on the identity of `result.strings`.  A miss
parses `result.getHTML()` with source locations, runs the part extractor,
and caches the triple; a hit returns the cached structure unchanged. -/
def getTemplate (env : Env) (result : TemplateResult) (c : Cache) :
    ParsedTemplate × Cache :=
  match lookupCache c.entries result.stringsId with
  | some t => (t, c)
  | none =>
    let html := result.getHTML
    let ast := env.parse html
    let parts := extractParts ast
    let t : ParsedTemplate := ⟨html, ast, parts⟩
    (t, ⟨c.entries ++ [(result.stringsId, t)], c.parses + 1⟩)

/-! ## The offset primitives `flushTo` and `skipTo` -/

/-- `flushTo(offset)`: throws when `lastOffset` is undefined; otherwise
yields `html.substring(previousLastOffset, offset)` and sets `lastOffset`
to `offset` (possibly `undefined`, for the final flush). -/
def flushToM (html : String) (offset : Option Nat) (ls : LState) : EmitM LState :=
  match ls.lastOffset with
  | none => ([], .error "lastOffset is undefined")
  | some prev =>
    ([jsSubstring html prev offset], .ok { ls with lastOffset := offset })

/-- `skipTo(offset)`: throws when `lastOffset` is undefined or when the
target is strictly less than it; otherwise sets `lastOffset` without
emitting. -/
def skipToM (offset : Nat) (ls : LState) : Except String LState :=
  match ls.lastOffset with
  | none => .error "lastOffset is undefined"
  | some prev =>
    if offset < prev then .error "offset must be greater than lastOffset"
    else .ok { ls with lastOffset := some offset }

/-! ## Attribute handling inside `handleNode` -/

/-- The per-`renderTemplateResult` template context handed to the node
handler: the HTML source, the static strings, the dynamic values and the
extracted parts of the template being rendered. -/
structure TmplCtx where
  html : String
  strings : List String
  values : List Value
  parts : List TemplatePart

/-- `getAttrValue`: replaces each marker occurrence in the raw attribute
value, left to right, with the resolved value starting at `startIndex`; a
class-map directive contributes the string its pre-renderer returns, any
other value is coerced with `String(...)`.  (An index past the end of
`values` reads JavaScript `undefined`.) -/
def getAttrValue (attrValue : String) (values : List Value) (startIndex : Nat) :
    String :=
  let rec join : List String → Nat → String
    | [], _ => ""
    | [p], _ => p
    | p :: rest, i =>
      let v := (values.get? i).getD .undef
      let rendered := match v with
        | .classMapD s => s
        | v' => jsString v'
      p ++ rendered ++ join rest (i + 1)
  join (splitMarker attrValue) startIndex

/-- The shared tail of each bound-attribute branch: `skipTo(attrEndOffset)`
then `templatePartIndex++` (the caller counts `boundAttrsCount`). -/
def finishAttr (out : List String) (attr : AttrN) (ls : LState)
    (inst : Option Instance) : EmitM (LState × Option Instance) :=
  match skipToM attr.endOffset ls with
  | .error e => (out, .error e)
  | .ok ls1 =>
    (out, .ok ({ ls1 with templatePartIndex := ls1.templatePartIndex + 1 }, inst))

/-- The console message of the boolean-attribute error. -/
def boolAttrErrMsg : String := "Boolean attributes can only contain a single expression"

/-- The body of the bound-attribute loop for one attribute whose name ends
with the bound suffix (source lines 316-382).  Reads the logical name from
`result.strings[partIndex]`, yields the raw HTML span up to the attribute
(`html.substring(lastOffset!, attrNameStartOffset)`, where a JavaScript
`undefined` start coerces to 0), then branches on the name's sigil. -/
def handleBoundAttr (env : Env) (ctx : TmplCtx) (tagName : String)
    (inst : Option Instance) (attr : AttrN) (ls : LState) :
    EmitM (LState × Option Instance) :=
  let stringForPart := (ctx.strings.get? ls.partIndex).getD "undefined"
  match lastAttributeName stringForPart with
  | none => ([], .error "TypeError: lastAttributeNameRegex.exec returned null")
  | some nm =>
    let statics := splitMarker attr.value
    let attributeName := attr.name.dropRight boundAttributeSuffix.length
    let flushChunk := jsSubstring ctx.html (ls.lastOffset.getD 0) (some attr.startOffset)
    match nm.toList with
    | '.' :: pn =>
      -- Property binding
      let propertyName := pn.asString
      let (value, ls1) :=
        if statics.length = 2 then
          -- Single-expression property binding
          (((ctx.values.get? ls.partIndex).getD .undef : Value),
            { ls with partIndex := ls.partIndex + 1 })
        else
          -- Multi-expression property binding
          ((.str (getAttrValue attr.value ctx.values ls.partIndex) : Value),
            { ls with partIndex := ls.partIndex + (statics.length - 1) })
      let inst1 := inst.map fun i => { i with props := i.props ++ [(propertyName, value)] }
      let reflOut := match env.reflect tagName propertyName with
        | some rn => [rn ++ "=\"" ++ jsString value ++ "\""]
        | none => []
      finishAttr (flushChunk :: reflOut) attr ls1 inst1
    | '@' :: _ =>
      -- Event binding: values consumed, nothing emitted
      finishAttr [flushChunk] attr
        { ls with partIndex := ls.partIndex + (statics.length - 1) } inst
    | '?' :: _ =>
      -- Boolean attribute binding
      let attributeName2 := attributeName.drop 1
      if statics.length == 2 && (statics.getD 0 "") == "" && (statics.getD 1 "") == "" then
        let value := (ctx.values.get? ls.partIndex).getD .undef
        let ls1 := { ls with partIndex := ls.partIndex + 1 }
        finishAttr (flushChunk :: (if truthy value then [attributeName2] else []))
          attr ls1 inst
      else
        ([flushChunk], .error boolAttrErrMsg)
    | _ =>
      -- Plain attribute binding
      let attributeString :=
        attributeName ++ "=\"" ++ getAttrValue attr.value ctx.values ls.partIndex ++ "\""
      finishAttr [flushChunk, attributeString] attr
        { ls with partIndex := ls.partIndex + (statics.length - 1) } inst

/-- The `for (const attr of node.attrs)` loop: handles each attribute whose
name ends with the bound suffix, threading the cursor state, the (possibly
property-assigned) instance and `boundAttrsCount`. -/
def attrsLoop (env : Env) (ctx : TmplCtx) (tagName : String) :
    Option Instance → List AttrN → LState → Nat →
    EmitM (LState × Option Instance × Nat)
  | inst, [], ls, cnt => ([], .ok (ls, inst, cnt))
  | inst, a :: rest, ls, cnt =>
    if a.name.endsWith boundAttributeSuffix then
      eseq (handleBoundAttr env ctx tagName inst a ls) fun r =>
        attrsLoop env ctx tagName r.2 rest r.1 (cnt + 1)
    else
      attrsLoop env ctx tagName inst rest ls cnt

/-! ## Custom-element construction and expansion -/

/-- The message `console.error` logs when a custom-element constructor
throws. -/
def ctorErrMsg : String := "Exception in custom element constructor"

/-- Stores a newly constructed instance into the topmost stack frame
(`renderInfo.instances[renderInfo.instances.length - 1].instance =
instance`). -/
def setLastInstance : List Frame → Instance → List Frame
  | [], _ => []
  | [f], i => [{ f with instance? := some i }]
  | f :: rest, i => f :: setLastInstance rest i

/-- Source lines 293-310: when the tag name contains `-` and a constructor
is registered, set `writeTag`, then `try { instance = new ctor();
instances[len-1].instance = instance } catch (e) { console.error(...) }`.
A throwing constructor leaves `instance` undefined and logs; a store into an
empty stack throws a TypeError that the same catch logs, while the local
`instance` variable keeps the constructed object. -/
def constructStep (env : Env) (tagName : String) (st : RState) :
    Bool × Option Instance × RState :=
  -- tagName.indexOf('-') !== -1
  if tagName.toList.contains '-' then
    match env.reg tagName with
    | some ctor =>
      match ctor with
      | .ok inst =>
        match st.instances with
        | [] => (true, some inst, { st with log := st.log ++ [ctorErrMsg] })
        | _ :: _ =>
          (true, some inst, { st with instances := setLastInstance st.instances inst })
      | .error _ => (true, none, { st with log := st.log ++ [ctorErrMsg] })
    | none => (false, none, st)
  else (false, none, st)

/-- Modelled from the spec: `LitElementRenderer.renderElement` (the file
`lit-element-renderer.js` is not under `src/`) — "Component Expansion:
recursive invocation of the Streaming Renderer against a newly instantiated
custom element's own output, chained onto the parent stream".  Modelled as
emitting the instance's (pre-rendered) output chunk sequence; it does not
alter the traversal state.  With no instance there is no expansion. -/
def expandStep : Option Instance → RState → EmitM RState
  | none, st => ([], .ok st)
  | some i, st => (i.shadow, .ok st)

/-- The `<!--lit-bindings N-->` marker: reads
`templateParts[templatePartIndex].index`; an out-of-range cursor reads
JavaScript `undefined` and the `.index` access throws. -/
def bindingsComment (ctx : TmplCtx) (ls : LState) : EmitM Unit :=
  if ls.templatePartIndex < 0 then
    ([], .error "TypeError: templatePart is undefined")
  else
    match ctx.parts.get? ls.templatePartIndex.toNat with
    | none => ([], .error "TypeError: templatePart is undefined")
    | some p =>
      (["<!--lit-bindings " ++ toString p.index ++ "-->"], .ok ())

/-- The element branch of `handleNode` after construction: the bound
attribute loop, the conditional start-tag flush, the conditional
`lit-bindings` comment, and the nested expansion of a constructed
instance. -/
def elementRest (env : Env) (ctx : TmplCtx) (tagName : String)
    (attrs : List AttrN) (startTagEnd : Nat) (writeTag : Bool)
    (inst : Option Instance) (ls : LState) (st : RState) :
    EmitM (LState × RState) :=
  eseq (attrsLoop env ctx tagName inst attrs ls 0) fun r =>
    let (ls1, inst1, cnt) := r
    eseq (if writeTag || !(cnt == 0) then flushToM ctx.html (some startTagEnd) ls1
          else ([], .ok ls1)) fun ls2 =>
    eseq (if !(cnt == 0) then bindingsComment ctx ls2 else ([], .ok ())) fun _ =>
    eseq (expandStep inst1 st) fun st2 =>
    ([], .ok (ls2, st2))

/-- The whole element branch of `handleNode`. -/
def handleElement (env : Env) (ctx : TmplCtx) (tagName : String)
    (attrs : List AttrN) (startTagEnd : Nat) (ls : LState) (st : RState) :
    EmitM (LState × RState) :=
  let (writeTag, inst, st1) := constructStep env tagName st
  elementRest env ctx tagName attrs startTagEnd writeTag inst ls st1

/-! ## The `pre`/`post` traversal of the top-level loop

`traverse(node, {pre, post})` (parse5-traverse, an external synchronous
visitor) pushes a frame for every element on `pre` and pops it on `post`;
it runs to completion before any node is handled, so its net effect on the
stack is the identity — modelled operationally all the same. -/

mutual
/-- The synchronous pre/post visit of one node: push on pre, visit the
children, pop on post. -/
def travNode : Node → List Frame → List Frame
  | .element tag _ _ cs, fs => (travList cs (fs ++ [⟨tag, none⟩])).dropLast
  | .comment _ _ _, fs => fs
  | .text _, fs => fs

/-- The synchronous pre/post visit of a node list. -/
def travList : List Node → List Frame → List Frame
  | [], fs => fs
  | n :: rest, fs => travList rest (travNode n fs)
end

/-! ## The streaming renderer

The mutually recursive generators `renderValue`, `renderTemplateResult` and
`handleNode` (plus their list-iterating loops) are embedded as one fueled
function `run` over a call descriptor, structurally recursive on the fuel so
that it evaluates by kernel reduction.  Fuel exhaustion is a model artifact
(`.error fuelMsg`); the claims below are all conditional on a completed run
or are evaluated at concrete inputs with ample fuel.

`renderValue` never touches the enclosing template's local cursors, so the
descriptor uniformly threads the pair `LState × RState` and the value cases
pass the `LState` through unchanged. -/

/-- The call descriptors of the mutual recursion. -/
inductive Call where
  /-- `renderValue(value, renderInfo)` -/
  | value (v : Value)
  /-- the `for (const item of value) renderValue(item)` loop of the array
  branch -/
  | valueList (vs : List Value)
  /-- `renderTemplateResult(result, renderInfo)` -/
  | tmplRes (t : TemplateResult)
  /-- the outer `for (const node of ast.childNodes)` loop -/
  | topNodes (ctx : TmplCtx) (ns : List Node)
  /-- the inner `for (const child of depthFirst(node)) handleNode(child)`
  loop -/
  | nodeSeq (ctx : TmplCtx) (ns : List Node)
  /-- `handleNode(node)` -/
  | node (ctx : TmplCtx) (n : Node)

/-- Error used when the structural fuel runs out (model artifact). -/
def fuelMsg : String := "model: out of fuel"

/-- The closing hydration marker. -/
def closePart : String := "<!--/lit-part-->"

/-- The opening hydration marker emitted by `renderValue` for a given
value: digest-carrying for a `TemplateResult`, bare otherwise. -/
def openChunk : Value → String
  | .template t => "<!--lit-part " ++ t.digest ++ "-->"
  | _ => "<!--lit-part-->"

/-- `renderValue` always wraps its branch between the opening and closing
`lit-part` comments; the closing comment is yielded only when the branch
did not throw. -/
def wrapPart {α : Type} (op : String) (m : EmitM α) : EmitM α :=
  match m with
  | (out, .error e) => (op :: out, .error e)
  | (out, .ok a) => (op :: out ++ [closePart], .ok a)

/-- The fueled interpreter of the mutually recursive generators. -/
def run : Nat → Env → Call → LState → RState → EmitM (LState × RState)
  | 0, _, _, _, _ => ([], .error fuelMsg)
  | n + 1, env, c, ls, st =>
    match c with
    | .value v =>
      match v with
      | .template t =>
        -- yield `<!--lit-part ${value.digest}-->`; renderTemplateResult
        wrapPart (openChunk (.template t)) (run n env (.tmplRes t) ls st)
      | .undef => wrapPart "<!--lit-part-->" ([], .ok (ls, st))
      | .nul => wrapPart "<!--lit-part-->" ([], .ok (ls, st))
      | .repeatD chunks =>
        -- repeat directive: its pre-renderer yields its own chunks
        wrapPart "<!--lit-part-->" (chunks, .ok (ls, st))
      | .renderLightD =>
        -- read instances[instances.length - 1] (TypeError when the stack is
        -- empty), then render the instance's renderLight() result
        wrapPart "<!--lit-part-->"
          (match st.instances.getLast? with
           | none => ([], .error "TypeError: Cannot read property of undefined")
           | some fr =>
             match fr.instance? with
             | none => ([], .ok (ls, st))
             | some inst => run n env (.value inst.renderLightValue) ls st)
      | .nothing => wrapPart "<!--lit-part-->" ([], .ok (ls, st))
      | .noChange => wrapPart "<!--lit-part-->" ([], .ok (ls, st))
      | .arr vs => wrapPart "<!--lit-part-->" (run n env (.valueList vs) ls st)
      | .str s => wrapPart "<!--lit-part-->" ([jsString (.str s)], .ok (ls, st))
      | .classMapD s =>
        -- not special-cased by renderValue: falls through to String(value)
        wrapPart "<!--lit-part-->" ([jsString (.classMapD s)], .ok (ls, st))
    | .valueList vs =>
      match vs with
      | [] => ([], .ok (ls, st))
      | v :: rest =>
        eseq (run n env (.value v) ls st) fun p =>
          run n env (.valueList rest) p.1 p.2
    | .tmplRes t =>
      let (tmpl, c2) := getTemplate env t st.cache
      let st1 := { st with cache := c2 }
      let ctx : TmplCtx := ⟨tmpl.html, t.strings, t.values, tmpl.parts⟩
      eseq (run n env (.topNodes ctx tmpl.ast.childNodes) ⟨0, -1, some 0⟩ st1)
        fun p =>
      eseq (flushToM tmpl.html none p.1) fun lsF =>
      if lsF.partIndex = t.values.length then
        -- restore the caller's local cursors: they are locals of the
        -- enclosing renderTemplateResult call
        ([], .ok (ls, p.2))
      else
        ([], .error "unexpected final partIndex")
    | .topNodes ctx ns =>
      match ns with
      | [] => ([], .ok (ls, st))
      | nd :: rest =>
        let st1 := match nd with
          | .element tag _ _ _ =>
            { st with instances := st.instances ++ [(⟨tag, none⟩ : Frame)] }
          | _ => st
        -- traverse(node, {pre, post}) runs to completion before handleNode
        let st2 := { st1 with instances := travNode nd st1.instances }
        eseq (run n env (.nodeSeq ctx (depthFirst nd)) ls st2) fun p =>
          let st3 := match nd with
            | .element _ _ _ _ => { p.2 with instances := p.2.instances.dropLast }
            | _ => p.2
          run n env (.topNodes ctx rest) p.1 st3
    | .nodeSeq ctx ns =>
      match ns with
      | [] => ([], .ok (ls, st))
      | nd :: rest =>
        eseq (run n env (.node ctx nd) ls st) fun p =>
          run n env (.nodeSeq ctx rest) p.1 p.2
    | .node ctx nd =>
      match nd with
      | .comment d s e =>
        if d = marker then
          eseq (flushToM ctx.html (some s) ls) fun ls1 =>
            match skipToM e ls1 with
            | .error er => ([], .error er)
            | .ok ls2 =>
              let v := (ctx.values.get? ls2.partIndex).getD .undef
              let ls3 := { ls2 with
                partIndex := ls2.partIndex + 1,
                templatePartIndex := ls2.templatePartIndex + 1 }
              run n env (.value v) ls3 st
        else ([], .ok (ls, st))
      | .text _ => ([], .ok (ls, st))
      | .element tagName attrs startTagEnd _ =>
        handleElement env ctx tagName attrs startTagEnd ls st

/-- `renderValue(value, renderInfo)`: the chunk stream and resulting shared
state. -/
def renderValue (fuel : Nat) (env : Env) (v : Value) (st : RState) :
    EmitM RState :=
  match run fuel env (.value v) ⟨0, -1, some 0⟩ st with
  | (out, .error e) => (out, .error e)
  | (out, .ok p) => (out, .ok p.2)

/-- `render(value)`: wraps a root value with a fresh, empty instance
stack. -/
def render (fuel : Nat) (env : Env) (v : Value) (cache : Cache) : EmitM RState :=
  renderValue fuel env v ⟨[], [], cache⟩

/-- The traversal phase of `renderTemplateResult` (everything before the
final tail flush and the value-count assertion): the cache-updated state and
the outer loop over the parsed fragment's child nodes, started with fresh
cursors. -/
def traversalRun (fuel : Nat) (env : Env) (t : TemplateResult) (st : RState) :
    EmitM (LState × RState) :=
  run fuel env
    (.topNodes
      ⟨(getTemplate env t st.cache).1.html, t.strings, t.values,
        (getTemplate env t st.cache).1.parts⟩
      (getTemplate env t st.cache).1.ast.childNodes)
    ⟨0, -1, some 0⟩ { st with cache := (getTemplate env t st.cache).2 }

/-! ## General lemmas -/

theorem eseq_error {α β : Type} (out : List String) (e : String)
    (f : α → EmitM β) : eseq (out, .error e) f = (out, .error e) := rfl

theorem eseq_ok {α β : Type} (out : List String) (a : α) (f : α → EmitM β) :
    eseq (out, .ok a) f = (out ++ (f a).1, (f a).2) := rfl

theorem wrapPart_ok_shape {α : Type} (op : String) (m : EmitM α)
    (out : List String) (a : α) (h : wrapPart op m = (out, .ok a)) :
    out.head? = some op ∧ out.getLast? = some closePart := by
  obtain ⟨o, exc⟩ := m
  cases exc with
  | error e => exact absurd (congrArg Prod.snd h) (by simp [wrapPart])
  | ok b =>
    simp only [wrapPart] at h
    obtain ⟨rfl, -⟩ := Prod.mk.injEq .. ▸ h
    refine ⟨rfl, ?_⟩
    rw [show op :: o ++ [closePart] = (op :: o) ++ [closePart] from rfl]
    exact List.getLast?_concat _

theorem splitMarkerAux_ne_nil (l acc : List Char) : splitMarkerAux acc l ≠ [] := by
  induction l generalizing acc with
  | nil => simp [splitMarkerAux]
  | cons c t ih =>
    simp only [splitMarkerAux]
    split
    · simp
    · exact ih _

theorem splitMarkerAux_eq_single (l acc : List Char)
    (h : splitMarkerAux acc l = [[]]) : acc = [] ∧ l = [] := by
  induction l generalizing acc with
  | nil =>
    simp only [splitMarkerAux, List.cons.injEq] at h
    exact ⟨by simpa using h.1, rfl⟩
  | cons c t ih =>
    simp only [splitMarkerAux] at h
    split at h
    · obtain ⟨-, h2⟩ := List.cons.injEq .. ▸ h
      exact absurd h2 (splitMarkerAux_ne_nil t [])
    · obtain ⟨h1, -⟩ := ih _ h
      simp at h1

theorem splitMarker_pair_of_marker : splitMarker marker = ["", ""] := by decide

theorem splitMarkerAux_eq_pair (l acc : List Char)
    (h : splitMarkerAux acc l = [[], []]) : acc.reverse ++ l = markerList := by
  induction l generalizing acc with
  | nil => simp [splitMarkerAux] at h
  | cons c t ih =>
    simp only [splitMarkerAux] at h
    split at h
    · next hpre =>
      obtain ⟨h1, h2⟩ := List.cons.injEq .. ▸ h
      obtain ⟨-, rfl⟩ := splitMarkerAux_eq_single t [] h2
      have hpre' : markerRev <+: (c :: acc) := List.isPrefixOf_iff_prefix.mp hpre
      have hdrop : (c :: acc).drop markerRev.length = [] := by
        simpa using h1
      have hlen : (c :: acc).length ≤ markerRev.length :=
        List.drop_eq_nil_iff.mp hdrop
      have heq : markerRev = c :: acc :=
        hpre'.eq_of_length (Nat.le_antisymm hpre'.length_le hlen)
      have : (c :: acc).reverse = markerList := by
        rw [← heq, markerRev, List.reverse_reverse]
      simpa using this
    · next =>
      have := ih (c :: acc) h
      simpa using this

/-- `attr.value.split(markerRegex)` yields exactly two empty statics iff the
raw attribute value is exactly the marker sentinel (i.e. exactly one
whole-value expression). -/
theorem splitMarker_eq_pair_iff (s : String) :
    splitMarker s = ["", ""] ↔ s = marker := by
  constructor
  · intro h
    have h2 : splitMarkerAux [] s.toList = [[], []] := by
      have hmap := h
      unfold splitMarker at hmap
      rcases hl : splitMarkerAux [] s.toList with _ | ⟨p, rest⟩
      · exact absurd hl (splitMarkerAux_ne_nil _ _)
      · rw [hl] at hmap
        rcases rest with _ | ⟨q, rest2⟩
        · simp at hmap
        · rcases rest2 with _ | ⟨r, rest3⟩
          · simp only [List.map_cons, List.map_nil, List.cons.injEq,
              and_true] at hmap
            obtain ⟨hp, hq⟩ := hmap
            have hp' : p = [] := by
              have := congrArg String.toList hp
              simpa using this
            have hq' : q = [] := by
              have := congrArg String.toList hq
              simpa using this
            rw [hp', hq']
          · simp at hmap
    have h3 := splitMarkerAux_eq_pair s.toList [] h2
    have h4 : s.toList = markerList := by simpa using h3
    exact String.ext h4
  · intro h
    rw [h]
    exact splitMarker_pair_of_marker

/-- The source's boolean-attribute check
`statics.length === 2 && statics[0] === '' && statics[1] === ''` holds iff
the statics list is exactly two empty strings. -/
theorem boolCheck_iff (l : List String) :
    (l.length == 2 && (l.getD 0 "") == "" && (l.getD 1 "") == "") = true ↔
      l = ["", ""] := by
  rcases l with _ | ⟨a, _ | ⟨b, _ | ⟨c, rest⟩⟩⟩ <;>
    simp [List.getD]

/-- Second-call cache hit: the entry appended by a miss is found. -/
theorem lookupCache_append_self (l : List (Nat × ParsedTemplate)) (k : Nat)
    (t : ParsedTemplate) (h : lookupCache l k = none) :
    lookupCache (l ++ [(k, t)]) k = some t := by
  induction l with
  | nil => simp [lookupCache]
  | cons p rest ih =>
    obtain ⟨k', t'⟩ := p
    simp only [lookupCache, List.cons_append] at h ⊢
    split at h
    · exact absurd h (by simp)
    · next hne => simp only [lookupCache, if_neg hne]; exact ih h

/-! ## Concrete fixtures used by the witnesses and evaluations -/

/-- An environment with nothing registered and an empty parse result. -/
def envEmpty : Env := ⟨fun _ => none, fun _ _ => none, fun _ => ⟨[]⟩⟩

/-- The empty template cache. -/
def cache0 : Cache := ⟨[], 0⟩

/-- A fresh top-level render state. -/
def st0 : RState := ⟨[], [], cache0⟩

/-- Fresh local cursors. -/
def ls0 : LState := ⟨0, -1, some 0⟩

/-! ## Claims -/

/-- Claim C9: `flushTo` fails fatally exactly when the flush offset is
undefined (otherwise it emits the substring from the current offset to the
target and sets the offset to the target), and `skipTo` (with a defined
current offset) fails fatally exactly when the target offset is strictly
less than the current flush offset, otherwise setting the offset to the
target without emitting. -/
theorem c9_offset_primitives (html : String) (to1 : Option Nat) (to2 : Nat)
    (ls : LState) :
    (ls.lastOffset = none →
      flushToM html to1 ls = ([], .error "lastOffset is undefined")) ∧
    (∀ p, ls.lastOffset = some p →
      flushToM html to1 ls =
        ([jsSubstring html p to1], .ok { ls with lastOffset := to1 })) ∧
    (∀ p, ls.lastOffset = some p → to2 < p →
      skipToM to2 ls = .error "offset must be greater than lastOffset") ∧
    (∀ p, ls.lastOffset = some p → ¬ to2 < p →
      skipToM to2 ls = .ok { ls with lastOffset := some to2 }) := by
  refine ⟨fun h => ?_, fun p h => ?_, fun p h hlt => ?_, fun p h hge => ?_⟩
  · simp [flushToM, h]
  · simp [flushToM, h]
  · simp [skipToM, h, if_pos hlt]
  · simp [skipToM, h, if_neg hge]

/-- Witness for C9: the four behaviors at concrete offsets over the string
`"abc"`. -/
theorem c9_offset_primitives_witness :
    flushToM "abc" (some 2) ⟨0, 0, some 1⟩ = (["b"], .ok ⟨0, 0, some 2⟩) ∧
    flushToM "abc" (some 2) ⟨0, 0, none⟩ = ([], .error "lastOffset is undefined") ∧
    skipToM 0 ⟨0, 0, some 1⟩ = .error "offset must be greater than lastOffset" ∧
    skipToM 3 ⟨0, 0, some 1⟩ = .ok ⟨0, 0, some 3⟩ :=
  ⟨(c9_offset_primitives "abc" (some 2) 0 ⟨0, 0, some 1⟩).2.1 1 rfl,
   (c9_offset_primitives "abc" (some 2) 0 ⟨0, 0, none⟩).1 rfl,
   (c9_offset_primitives "abc" (some 2) 0 ⟨0, 0, some 1⟩).2.2.1 1 rfl (by decide),
   (c9_offset_primitives "abc" (some 2) 3 ⟨0, 0, some 1⟩).2.2.2 1 rfl (by decide)⟩

/-- Claim C8: the template registry is memoized on static-fragment
identity — calling `getTemplate` a second time with the same identity
returns the identical (hence structurally equal) `ParsedTemplate` and
leaves the cache, including its parse counter, unchanged, so nothing is
re-parsed and rendered output is unchanged. -/
theorem c8_template_registry_idempotent (env : Env) (r : TemplateResult)
    (c : Cache) :
    getTemplate env r ((getTemplate env r c).2) = getTemplate env r c := by
  unfold getTemplate
  rcases h : lookupCache c.entries r.stringsId with - | t
  · simp only [h]
    rw [lookupCache_append_self c.entries r.stringsId _ h]
  · simp [h]

/-- Claim C2 (code bug): the claim states that the extractor's running
depth-first index advances by exactly one for a comment node whose text is
not the marker sentinel, the extra increment being reserved for marker
comments.  In the code the `nodeIndex++` inside the comment branch runs for
*every* comment node, so a non-marker comment advances the index by two:
`extractStep` maps index 0 to 2 on `<!--x-->`, and on a fragment consisting
of a non-marker comment followed by a marker comment the `NodePart` is
recorded at index 2 where the claimed counting yields index 1 (the
`NodePart` is still recorded at the pre-increment index, as claimed). -/
theorem c2_comment_double_increment_eval :
    extractStep 0 [] (.comment "x" 0 9) = (2, []) ∧
    extractParts ⟨[.comment "x" 0 9, .comment marker 9 32]⟩ = [.node 2] :=
  ⟨rfl, rfl⟩

/-- Claim C3: whenever `renderValue` completes, its chunk sequence begins
with the opening `lit-part` comment — digest-carrying when the value is a
`TemplateResult`, bare otherwise — and ends with the closing `lit-part`
comment, in every branch. -/
theorem c3_renderValue_wrapped (fuel : Nat) (env : Env) (v : Value)
    (ls ls' : LState) (st st' : RState) (out : List String)
    (h : run fuel env (.value v) ls st = (out, .ok (ls', st'))) :
    out.head? = some (openChunk v) ∧ out.getLast? = some closePart := by
  cases fuel with
  | zero => exact absurd (congrArg Prod.snd h) (by simp [run])
  | succ n =>
    cases v <;> (simp only [run] at h; exact wrapPart_ok_shape _ _ _ _ h)

/-- Witness for C3: a plain string value rendered with fuel 2. -/
theorem c3_renderValue_wrapped_witness :
    (["<!--lit-part-->", "hi", "<!--/lit-part-->"] : List String).head? =
        some (openChunk (.str "hi")) ∧
    (["<!--lit-part-->", "hi", "<!--/lit-part-->"] : List String).getLast? =
        some closePart :=
  c3_renderValue_wrapped 2 envEmpty (.str "hi") ls0 ls0 st0 st0 _ rfl

/-- Claim C10: rendering a render-light directive while the instance stack
is empty (as for a top-level `render` call) throws while reading the
nonexistent topmost frame (`instances[instances.length - 1]` is `undefined`
and the `.instance` access throws) instead of producing the wrapped empty
output — only the opening marker has been yielded when the stream dies, so
a non-empty stack is an unstated precondition of render-light
directives. -/
theorem c10_renderlight_empty_stack (fuel : Nat) (env : Env) (ls : LState)
    (st : RState) (h : st.instances = []) :
    run (fuel + 1) env (.value .renderLightD) ls st =
      (["<!--lit-part-->"],
        .error "TypeError: Cannot read property of undefined") := by
  simp [run, h, wrapPart]

/-- Witness for C10: the top-level state has an empty instance stack. -/
theorem c10_renderlight_empty_stack_witness :
    run 1 envEmpty (.value .renderLightD) ls0 st0 =
      (["<!--lit-part-->"],
        .error "TypeError: Cannot read property of undefined") :=
  c10_renderlight_empty_stack 0 envEmpty ls0 st0 rfl

/-- A successful `skipTo` only moves `lastOffset`. -/
theorem skipToM_ok_fields (o : Nat) (ls ls1 : LState)
    (h : skipToM o ls = .ok ls1) : ls1 = { ls with lastOffset := some o } := by
  unfold skipToM at h
  split at h
  · exact absurd h (by simp)
  · split at h
    · exact absurd h (by simp)
    · injection h with h'; exact h'.symm

/-- `finishAttr` returns the instance it was given. -/
theorem finishAttr_ok_inst (o : List String) (a : AttrN) (l : LState)
    (i : Option Instance) (out : List String) (ls' : LState)
    (i' : Option Instance) (h : finishAttr o a l i = (out, .ok (ls', i'))) :
    i' = i := by
  unfold finishAttr at h
  split at h
  · exact absurd (congrArg Prod.snd h) (by simp)
  · obtain ⟨-, h2⟩ := Prod.mk.injEq .. ▸ h
    injection h2 with h3
    exact ((Prod.mk.injEq .. ▸ h3).2).symm

/-- `handleBoundAttr` never materializes an instance: with no instance on
entry there is none on exit (so no property can ever be assigned onto
one). -/
theorem handleBoundAttr_none (env : Env) (ctx : TmplCtx) (tagName : String)
    (attr : AttrN) (ls : LState) (out : List String) (ls' : LState)
    (inst' : Option Instance)
    (h : handleBoundAttr env ctx tagName none attr ls = (out, .ok (ls', inst'))) :
    inst' = none := by
  simp only [handleBoundAttr] at h
  split at h
  · exact absurd (congrArg Prod.snd h) (by simp)
  · split at h
    · -- property binding: `inst.map` on `none` is `none`
      split at h <;>
        simpa using finishAttr_ok_inst _ _ _ _ _ _ _ h
    · exact finishAttr_ok_inst _ _ _ _ _ _ _ h
    · split at h
      · exact finishAttr_ok_inst _ _ _ _ _ _ _ h
      · exact absurd (congrArg Prod.snd h) (by simp)
    · exact finishAttr_ok_inst _ _ _ _ _ _ _ h

/-- The bound-attribute loop preserves the absence of an instance. -/
theorem attrsLoop_inst_none (attrs : List AttrN) (env : Env) (ctx : TmplCtx)
    (tagName : String) (ls : LState) (cnt : Nat) (out : List String)
    (ls3 : LState) (i3 : Option Instance) (c3 : Nat)
    (h : attrsLoop env ctx tagName none attrs ls cnt = (out, .ok (ls3, i3, c3))) :
    i3 = none := by
  induction attrs generalizing ls cnt out with
  | nil =>
    simp only [attrsLoop] at h
    obtain ⟨-, h2⟩ := Prod.mk.injEq .. ▸ h
    injection h2 with h3
    exact congrArg (fun (q : LState × Option Instance × Nat) => q.2.1) h3.symm
  | cons a rest ih =>
    simp only [attrsLoop] at h
    split at h
    · rcases hba : handleBoundAttr env ctx tagName none a ls with ⟨o1, r1⟩
      rw [hba] at h
      cases r1 with
      | error e =>
        rw [eseq_error] at h
        exact absurd (congrArg Prod.snd h) (by simp)
      | ok p =>
        simp only [eseq_ok] at h
        have hp2 : p.2 = none :=
          handleBoundAttr_none env ctx tagName a ls o1 p.1 p.2 hba
        rcases hloop : attrsLoop env ctx tagName p.2 rest p.1 (cnt + 1) with ⟨o2, r2⟩
        rw [hloop] at h
        obtain ⟨-, h2⟩ := Prod.mk.injEq .. ▸ h
        rw [hp2] at hloop
        cases r2 with
        | error e => simp at h2
        | ok q =>
          obtain rfl : q = (ls3, i3, c3) := by injection h2
          exact ih _ _ _ hloop
    · exact ih _ _ _ h

/-- Claim C5: a boolean-attribute binding (logical name starting with `?`)
raises the fatal boolean-attribute error if and only if its raw attribute
value is not exactly one whole-value expression (any literal text fragment
around the marker triggers the error); on success it consumes exactly one
value and — besides the pending-HTML span emitted for every bound
attribute — emits the bare attribute name, with no value, exactly when the
consumed value is truthy, leaving the instance untouched. -/
theorem c5_boolean_attribute (env : Env) (ctx : TmplCtx) (tagName : String)
    (inst : Option Instance) (attr : AttrN) (ls : LState) (nm : String)
    (rest : List Char)
    (hnm : lastAttributeName ((ctx.strings.get? ls.partIndex).getD "undefined")
      = some nm)
    (hsig : nm.toList = '?' :: rest) :
    (attr.value ≠ marker →
      handleBoundAttr env ctx tagName inst attr ls =
        ([jsSubstring ctx.html (ls.lastOffset.getD 0) (some attr.startOffset)],
          .error boolAttrErrMsg)) ∧
    (attr.value = marker →
      handleBoundAttr env ctx tagName inst attr ls =
        finishAttr
          (jsSubstring ctx.html (ls.lastOffset.getD 0) (some attr.startOffset) ::
            (if truthy ((ctx.values.get? ls.partIndex).getD .undef) then
              [(attr.name.dropRight boundAttributeSuffix.length).drop 1]
            else []))
          attr { ls with partIndex := ls.partIndex + 1 } inst) ∧
    (∀ out ls' inst', attr.value = marker →
      handleBoundAttr env ctx tagName inst attr ls = (out, .ok (ls', inst')) →
      ls'.partIndex = ls.partIndex + 1 ∧ inst' = inst) := by
  have hiff : ((splitMarker attr.value).length == 2 &&
      ((splitMarker attr.value).getD 0 "") == "" &&
      ((splitMarker attr.value).getD 1 "") == "") = true ↔
        attr.value = marker := by
    rw [boolCheck_iff, splitMarker_eq_pair_iff]
  have hok : attr.value = marker →
      handleBoundAttr env ctx tagName inst attr ls =
        finishAttr
          (jsSubstring ctx.html (ls.lastOffset.getD 0) (some attr.startOffset) ::
            (if truthy ((ctx.values.get? ls.partIndex).getD .undef) then
              [(attr.name.dropRight boundAttributeSuffix.length).drop 1]
            else []))
          attr { ls with partIndex := ls.partIndex + 1 } inst := by
    intro heq
    simp only [handleBoundAttr, hnm, hsig]
    rw [if_pos (hiff.mpr heq)]
  refine ⟨fun hne => ?_, hok, fun out ls' inst' heq hrun => ?_⟩
  · simp only [handleBoundAttr, hnm, hsig]
    rw [if_neg (fun hc => hne (hiff.mp hc))]
  · rw [hok heq] at hrun
    unfold finishAttr at hrun
    split at hrun
    · exact absurd (congrArg Prod.snd hrun) (by simp)
    · next ls1 hskip =>
      obtain ⟨-, h2⟩ := Prod.mk.injEq .. ▸ hrun
      injection h2 with h3
      obtain ⟨h4, h5⟩ := Prod.mk.injEq .. ▸ h3
      have hfields := skipToM_ok_fields _ _ _ hskip
      constructor
      · rw [← h4, hfields]
      · exact h5.symm

/-- The template context and attributes of the boolean-binding witness:
`<input ?disabled="${...}">`. -/
def ctxBool : TmplCtx :=
  ⟨"<input ?disabled$lit$=\"" ++ marker ++ "\">", ["<input ?disabled=", ">"],
    [.str "x"], []⟩

/-- A boolean-bound attribute whose raw value is exactly the marker. -/
def attrBoolOk : AttrN := ⟨"?disabled$lit$", marker, 7, 36⟩

/-- A boolean-bound attribute with a literal fragment around the marker. -/
def attrBoolBad : AttrN := ⟨"?disabled$lit$", "a" ++ marker, 7, 37⟩

/-- Witness for C5: the well-formed binding consumes one value and emits
the bare name (the value `"x"` is truthy); the binding with literal text
fails with the boolean-attribute error. -/
theorem c5_boolean_attribute_witness :
    handleBoundAttr envEmpty ctxBool "input" none attrBoolOk ls0 =
      (["<input ", "disabled"], .ok (⟨1, 0, some 36⟩, none)) ∧
    handleBoundAttr envEmpty ctxBool "input" none attrBoolBad ls0 =
      (["<input "], .error boolAttrErrMsg) :=
  ⟨((c5_boolean_attribute envEmpty ctxBool "input" none attrBoolOk ls0
      "?disabled" "disabled".toList rfl rfl).2.1 rfl).trans rfl,
   ((c5_boolean_attribute envEmpty ctxBool "input" none attrBoolBad ls0
      "?disabled" "disabled".toList rfl rfl).1 (by decide)).trans rfl⟩

/-- Claim C7: when a registered custom element's constructor throws, the
exception is caught and logged (`constructStep` returns instead of
propagating, appending the console message), the element is handled exactly
as the non-custom path with no instance (`handleElement` reduces to
`elementRest` with `none`), no expansion of the element's own output occurs
(`expandStep` of `none` emits nothing), no property is ever assigned onto an
instance (the attribute loop keeps the instance absent), and a completed
element render leaves the instance stack untouched, the log message being
the only state change — the enclosing render is not aborted by the
construction failure. -/
theorem c7_ctor_throw_fallback (env : Env) (ctx : TmplCtx) (tagName : String)
    (attrs : List AttrN) (startTagEnd : Nat) (ls : LState) (st : RState)
    (hdash : tagName.toList.contains '-' = true)
    (hreg : env.reg tagName = some (.error ())) :
    constructStep env tagName st =
      (true, none, { st with log := st.log ++ [ctorErrMsg] }) ∧
    handleElement env ctx tagName attrs startTagEnd ls st =
      elementRest env ctx tagName attrs startTagEnd true none ls
        { st with log := st.log ++ [ctorErrMsg] } ∧
    (∀ st2, expandStep none st2 = ([], .ok st2)) ∧
    (∀ (attrs2 : List AttrN) (ls2 : LState) (cnt : Nat) (out : List String)
        (ls3 : LState) (i3 : Option Instance) (c3 : Nat),
      attrsLoop env ctx tagName none attrs2 ls2 cnt = (out, .ok (ls3, i3, c3)) →
      i3 = none) ∧
    (∀ out r, elementRest env ctx tagName attrs startTagEnd true none ls
        { st with log := st.log ++ [ctorErrMsg] } = (out, r) →
      ∀ lsr str, r = .ok (lsr, str) →
        str.instances = st.instances ∧ str.log = st.log ++ [ctorErrMsg]) := by
  have hcs : constructStep env tagName st =
      (true, none, { st with log := st.log ++ [ctorErrMsg] }) := by
    unfold constructStep
    rw [if_pos hdash, hreg]
  refine ⟨hcs, ?_, fun st2 => rfl, fun a l c o l3 i3 c3 h =>
    attrsLoop_inst_none a env ctx tagName l c o l3 i3 c3 h, ?_⟩
  · unfold handleElement
    rw [hcs]
  · intro out r h lsr str hr
    subst hr
    unfold elementRest at h
    rcases hal : attrsLoop env ctx tagName none attrs ls 0 with ⟨o1, r1⟩
    rw [hal] at h
    cases r1 with
    | error e =>
      rw [eseq_error] at h
      exact absurd (congrArg Prod.snd h) (by simp)
    | ok p =>
      obtain ⟨ls1, i1, cnt⟩ := p
      have hi1 : i1 = none :=
        attrsLoop_inst_none attrs env ctx tagName ls 0 o1 ls1 i1 cnt hal
      subst hi1
      simp only [eseq_ok] at h
      rcases hfl : flushToM ctx.html (some startTagEnd) ls1 with ⟨o2, r2⟩
      rw [hfl] at h
      simp only [Bool.true_or, eq_self_iff_true, if_true] at h
      cases r2 with
      | error e =>
        rw [eseq_error] at h
        exact absurd (congrArg Prod.snd h) (by simp)
      | ok ls2 =>
        simp only [eseq_ok] at h
        by_cases hcnt : (!(cnt == 0)) = true
        · rw [if_pos hcnt] at h
          rcases hbc : bindingsComment ctx ls2 with ⟨o3, r3⟩
          rw [hbc] at h
          cases r3 with
          | error e =>
            rw [eseq_error] at h
            exact absurd (congrArg Prod.snd h) (by simp)
          | ok u =>
            simp only [eseq_ok, expandStep] at h
            obtain ⟨-, h3⟩ := Prod.mk.injEq .. ▸ h
            injection h3 with h4
            obtain ⟨-, h5⟩ := Prod.mk.injEq .. ▸ h4
            rw [← h5]
            exact ⟨rfl, rfl⟩
        · rw [if_neg hcnt] at h
          simp only [eseq_ok, expandStep] at h
          obtain ⟨-, h3⟩ := Prod.mk.injEq .. ▸ h
          injection h3 with h4
          obtain ⟨-, h5⟩ := Prod.mk.injEq .. ▸ h4
          rw [← h5]
          exact ⟨rfl, rfl⟩

/-- An environment in which `x-boom` is registered with a constructor that
throws. -/
def envBoom : Env :=
  ⟨fun t => if t = "x-boom" then some (.error ()) else none,
    fun _ _ => none, fun _ => ⟨[]⟩⟩

/-- An empty template context. -/
def ctx0 : TmplCtx := ⟨"", [], [], []⟩

/-- Witness for C7: constructing `x-boom` fails, is logged, leaves no
instance, and expansion of the missing instance emits nothing. -/
theorem c7_ctor_throw_fallback_witness :
    constructStep envBoom "x-boom" st0 =
      (true, none, { st0 with log := [ctorErrMsg] }) ∧
    expandStep none st0 = ([], .ok st0) :=
  ⟨(c7_ctor_throw_fallback envBoom ctx0 "x-boom" [] 0 ls0 st0 (by decide) rfl).1,
   (c7_ctor_throw_fallback envBoom ctx0 "x-boom" [] 0 ls0 st0 (by decide) rfl).2.2.1 st0⟩

/-- `flushTo` with a defined offset: its emission and state update. -/
theorem flushToM_some (html : String) (off : Option Nat) (ls : LState)
    (p : Nat) (h : ls.lastOffset = some p) :
    flushToM html off ls =
      ([jsSubstring html p off], .ok { ls with lastOffset := off }) := by
  simp [flushToM, h]

/-- A successful `flushTo` only moves `lastOffset`. -/
theorem flushToM_ok_cursors (html : String) (off : Option Nat) (ls : LState)
    (o : List String) (ls1 : LState) (h : flushToM html off ls = (o, .ok ls1)) :
    ls1.partIndex = ls.partIndex ∧ ls1.templatePartIndex = ls.templatePartIndex := by
  unfold flushToM at h
  split at h
  · exact absurd (congrArg Prod.snd h) (by simp)
  · obtain ⟨-, h2⟩ := Prod.mk.injEq .. ▸ h
    injection h2 with h3
    rw [← h3]
    exact ⟨rfl, rfl⟩

/-- `run` on a `TemplateResult` is the traversal phase followed by the
final tail flush and the value-count check. -/
theorem run_tmplRes_eq (n : Nat) (env : Env) (t : TemplateResult)
    (ls : LState) (st : RState) :
    run (n + 1) env (.tmplRes t) ls st =
      eseq (traversalRun n env t st) (fun p =>
        eseq (flushToM (getTemplate env t st.cache).1.html none p.1) (fun lsF =>
          if lsF.partIndex = t.values.length then ([], .ok (ls, p.2))
          else ([], .error "unexpected final partIndex"))) := rfl

/-- Claim C1: a full `renderTemplateResult` run consumes exactly
`result.values.length` dynamic values — when the run completes normally,
the traversal ended with the value cursor equal to `values.length`; and a
traversal ending with any other cursor value makes the run raise the fatal
`unexpected final partIndex` error instead of completing normally. -/
theorem c1_values_consumed (n : Nat) (env : Env) (t : TemplateResult)
    (ls : LState) (st : RState) :
    (∀ out ls2 st2,
      run (n + 1) env (.tmplRes t) ls st = (out, .ok (ls2, st2)) →
      ∃ o1 lsE stE, traversalRun n env t st = (o1, .ok (lsE, stE)) ∧
        lsE.partIndex = t.values.length) ∧
    (∀ o1 lsE stE,
      traversalRun n env t st = (o1, .ok (lsE, stE)) →
      lsE.partIndex ≠ t.values.length →
      ∃ o e, run (n + 1) env (.tmplRes t) ls st = (o, .error e)) := by
  constructor
  · intro out ls2 st2 h
    rw [run_tmplRes_eq] at h
    rcases htr : traversalRun n env t st with ⟨o1, r1⟩
    rw [htr] at h
    cases r1 with
    | error e =>
      rw [eseq_error] at h
      exact absurd (congrArg Prod.snd h) (by simp)
    | ok p =>
      obtain ⟨pl, pr⟩ := p
      simp only [eseq_ok] at h
      rcases hfl : flushToM (getTemplate env t st.cache).1.html none (pl, pr).1
        with ⟨o2, r2⟩
      rw [hfl] at h
      cases r2 with
      | error e =>
        rw [eseq_error] at h
        exact absurd (congrArg Prod.snd h) (by simp)
      | ok lsF =>
        simp only [eseq_ok] at h
        split at h
        · next hEq =>
          refine ⟨o1, pl, pr, rfl, ?_⟩
          rw [← (flushToM_ok_cursors _ _ _ _ _ hfl).1]
          exact hEq
        · exact absurd (congrArg Prod.snd h) (by simp)
  · intro o1 lsE stE htr hne
    rw [run_tmplRes_eq, htr]
    simp only [eseq_ok]
    rcases hfl : flushToM (getTemplate env t st.cache).1.html none
        (lsE, stE).1 with ⟨o2, r2⟩
    cases r2 with
    | error e => exact ⟨_, e, by rw [eseq_error]⟩
    | ok lsF =>
      have hpi : lsF.partIndex = lsE.partIndex :=
        (flushToM_ok_cursors _ _ _ _ _ hfl).1
      simp only [eseq_ok]
      rw [if_neg (show ¬ lsF.partIndex = t.values.length by
        rw [hpi]; exact hne)]
      exact ⟨_, _, rfl⟩

/-- Claim C6: after the traversal completes, `renderTemplateResult` flushes
the remaining HTML tail unconditionally — for every parsed template shape,
whenever the traversal phase completes with flush offset `p`, the run's
chunk sequence is the traversal output followed by the substring of the
template HTML from `p` to its end, whether or not the final value-count
assertion then passes. -/
theorem c6_tail_flush (n : Nat) (env : Env) (t : TemplateResult)
    (ls : LState) (st : RState) (o1 : List String) (lsE : LState)
    (stE : RState) (p : Nat)
    (htr : traversalRun n env t st = (o1, .ok (lsE, stE)))
    (hoff : lsE.lastOffset = some p) :
    ∃ r, run (n + 1) env (.tmplRes t) ls st =
      (o1 ++ [jsSubstring (getTemplate env t st.cache).1.html p none], r) := by
  rw [run_tmplRes_eq, htr]
  simp only [eseq_ok]
  rw [flushToM_some (getTemplate env t st.cache).1.html none (lsE, stE).1 p hoff]
  simp only [eseq_ok]
  split
  · exact ⟨_, rfl⟩
  · exact ⟨_, rfl⟩

/-- The parse of the witness template `<p>hi</p>`. -/
def fragP : Fragment := ⟨[.element "p" [] 3 [.text "hi"]]⟩

/-- The witness environment: nothing registered, parsing yields `fragP`. -/
def envP : Env := ⟨fun _ => none, fun _ _ => none, fun _ => fragP⟩

/-- The witness template result: `<p>hi</p>` with no dynamic values. -/
def tP : TemplateResult := .mk 1 ["<p>hi</p>"] "<p>hi</p>" [] "dg"

/-- The shared render state after the witness template has been parsed and
cached. -/
def stP1 : RState := ⟨[], [], ⟨[(1, ⟨"<p>hi</p>", fragP, []⟩)], 1⟩⟩

/-- Witness for C1: the completed render of `<p>hi</p>` really went through
a traversal ending at cursor 0 = `values.length`. -/
theorem c1_values_consumed_witness :
    ∃ o1 lsE stE, traversalRun 8 envP tP st0 = (o1, .ok (lsE, stE)) ∧
      lsE.partIndex = tP.values.length :=
  (c1_values_consumed 8 envP tP ls0 st0).1 ["<p>hi</p>"] ls0 stP1 rfl

/-- Witness for C6: the rendered output of `<p>hi</p>` ends with the tail
flush of the whole template HTML. -/
theorem c6_tail_flush_witness :
    ∃ r, run 9 envP (.tmplRes tP) ls0 st0 =
      ([] ++ [jsSubstring (getTemplate envP tP st0.cache).1.html 0 none], r) :=
  c6_tail_flush 8 envP tP ls0 st0 [] ⟨0, -1, some 0⟩ stP1 0 rfl rfl

/-- The registered custom element of the C4 evaluation. -/
def instMyEl : Instance := ⟨"my-el", [], ["SHADOW"], .undef⟩

/-- `<my-el>` containing a marker comment
(`<section><my-el><!--marker--></my-el></section>`, offsets 16–40). -/
def nMyEl : Node := .element "my-el" [] 16 [.comment marker 16 40]

/-- The enclosing (non-custom) `<section>` element. -/
def nSection : Node := .element "section" [] 9 [nMyEl]

/-- The HTML source of the nested-element template. -/
def htmlC4 : String := "<section><my-el><!--" ++ marker ++ "--></my-el></section>"

/-- The parsed fragment of the nested-element template. -/
def fragC4 : Fragment := ⟨[nSection]⟩

/-- An environment in which `my-el` is registered with a working
constructor. -/
def envC4 : Env :=
  ⟨fun t => if t = "my-el" then some (.ok instMyEl) else none,
    fun _ _ => none, fun _ => fragC4⟩

/-- The template context of the nested-element template. -/
def ctxC4 : TmplCtx :=
  ⟨htmlC4, ["<section><my-el><!--", "--></my-el></section>"], [.str "v"],
    extractParts fragC4⟩

/-- The state right after `renderTemplateResult`'s outer loop pushed the
frame for the top-level `<section>` child (its `pre`/`post` traversal has
already run to completion and is a net no-op on the stack). -/
def stC4 : RState := ⟨[⟨"section", none⟩], [], cache0⟩

/-- Claim C4 (code bug): processing the depth-first prefix
`[<section>, <my-el>]` — i.e. the state in force when the next node, the
marker comment *inside* the custom element `<my-el>`, is rendered — leaves
the instance stack holding the single frame pushed for the top-level
`<section>` child, with the newly constructed `my-el` instance stored into
that `section` frame.  The node being rendered next sits inside the custom
element `my-el`, yet the top of the stack is the frame of the non-custom
`section` element: `handleNode` never pushes frames (only the outer loop
over top-level children does, and the `traverse(node, {pre, post})` call
runs to completion — a net no-op — before any node is handled), so for
elements nested deeper than the top level the claimed invariant fails and
the instance is stored into the wrong frame. -/
theorem c4_stack_nested_eval :
    run 9 envC4 (.nodeSeq ctxC4 [nSection, nMyEl]) ls0 stC4 =
      (["<section><my-el>", "SHADOW"],
        .ok (⟨0, -1, some 16⟩,
          ⟨[⟨"section", some instMyEl⟩], [], cache0⟩)) := rfl

end LitSsr
